import Mathlib

/-!
Verification of the claim-evaluation and claim-lifecycle logic of the
campus lost-and-found application (`src/routes/claims.js`, first document:
the proof-required variant referenced by the specification).

The embedding models:
* `getEditDistance` — the dynamic-programming edit-distance matrix from the
  source, as row-by-row list recursion;
* `levenshtein` — the standard recursive Levenshtein distance with unit-cost
  insert/delete/substitute, used as the mathematical reference;
* `calculateSimilarity`, the per-question answer comparator and the aggregate
  claim classification;
* the claim-submission, proof-upload, approve, complete and contact-lookup
  route handlers over an explicit relational state (`DB`).
-/

namespace LostFound

/-- Reference definition: the standard Levenshtein distance between two
character lists, with unit-cost insertion, deletion and substitution. -/
def levenshtein : List Char → List Char → Nat
  | [], ys => ys.length
  | xs, [] => xs.length
  | x :: xs, y :: ys =>
      if x = y then levenshtein xs ys
      else 1 + min (levenshtein xs ys)
          (min (levenshtein (x :: xs) ys) (levenshtein xs (y :: ys)))
termination_by xs ys => xs.length + ys.length

theorem lev_nil_left (ys : List Char) : levenshtein [] ys = ys.length := by
  cases ys <;> simp [levenshtein]

theorem lev_nil_right (xs : List Char) : levenshtein xs [] = xs.length := by
  cases xs <;> simp [levenshtein]

theorem lev_cons_cons (x y : Char) (xs ys : List Char) :
    levenshtein (x :: xs) (y :: ys) =
      if x = y then levenshtein xs ys
      else 1 + min (levenshtein xs ys)
          (min (levenshtein (x :: xs) ys) (levenshtein xs (y :: ys))) := by
  simp [levenshtein]

theorem lev_self (xs : List Char) : levenshtein xs xs = 0 := by
  induction xs with
  | nil => simp [lev_nil_left]
  | cons x xs ih => simp [lev_cons_cons, ih]

theorem lev_le_max_aux : ∀ (n : Nat) (xs ys : List Char), xs.length + ys.length ≤ n →
    levenshtein xs ys ≤ max xs.length ys.length := by
  intro n
  induction n with
  | zero =>
      intro xs ys h
      have hx : xs = [] := List.eq_nil_of_length_eq_zero (by omega)
      have hy : ys = [] := List.eq_nil_of_length_eq_zero (by omega)
      subst hx; subst hy
      simp [lev_nil_left]
  | succ n ih =>
      intro xs ys h
      cases xs with
      | nil => simp [lev_nil_left]
      | cons x A =>
        cases ys with
        | nil => simp [lev_nil_right]
        | cons y B =>
          rw [lev_cons_cons]
          have h1 : levenshtein A B ≤ max A.length B.length := by
            apply ih; simp at h ⊢; omega
          by_cases hxy : x = y
          · simp only [hxy, if_true, List.length_cons]
            simp at h1 ⊢
            omega
          · simp only [hxy, if_false, List.length_cons]
            simp at h1 ⊢
            omega

set_option maxHeartbeats 800000 in
/-- The Levenshtein recurrence also holds for appending one character at the
end of each argument; this is the bridge from the head-recursive reference
definition to the left-to-right dynamic-programming matrix. -/
theorem lev_snoc_aux (x y : Char) :
    ∀ (n : Nat) (xs ys : List Char), xs.length + ys.length ≤ n →
      levenshtein (xs ++ [x]) (ys ++ [y]) =
        if x = y then levenshtein xs ys
        else 1 + min (levenshtein xs ys)
            (min (levenshtein (xs ++ [x]) ys) (levenshtein xs (ys ++ [y]))) := by
  intro n
  induction n with
  | zero =>
      intro xs ys h
      have hx : xs = [] := List.eq_nil_of_length_eq_zero (by omega)
      have hy : ys = [] := List.eq_nil_of_length_eq_zero (by omega)
      subst hx; subst hy
      by_cases hxy : x = y <;>
        simp [hxy, lev_cons_cons, lev_nil_left, lev_nil_right]
  | succ n ih =>
      intro xs ys h
      cases xs with
      | nil =>
        cases ys with
        | nil =>
          by_cases hxy : x = y <;>
            simp [hxy, lev_cons_cons, lev_nil_left, lev_nil_right]
        | cons t B =>
          have h1 := ih [] B (by simp at h ⊢; omega)
          simp only [List.nil_append, List.cons_append] at h1 ⊢
          rw [lev_cons_cons x t [] (B ++ [y]), lev_cons_cons x t [] B, h1]
          simp only [lev_nil_left, List.length_append, List.length_cons,
            List.length_nil]
          split_ifs <;> omega
      | cons s A =>
        cases ys with
        | nil =>
          have h1 := ih A [] (by simp at h ⊢; omega)
          simp only [List.nil_append, List.cons_append] at h1 ⊢
          rw [lev_cons_cons s y (A ++ [x]) [], lev_cons_cons s y A [], h1]
          simp only [lev_nil_right, List.length_append, List.length_cons,
            List.length_nil]
          split_ifs <;> omega
        | cons t B =>
          have hlen : A.length + B.length + 2 ≤ n + 1 := by simp at h; omega
          have h1 := ih A B (by omega)
          have h2 := ih (s :: A) B (by simp; omega)
          have h3 := ih A (t :: B) (by simp; omega)
          simp only [List.cons_append] at h1 h2 h3 ⊢
          simp only [lev_cons_cons s t, h1, h2, h3]
          generalize levenshtein A B = a
          generalize levenshtein (A ++ [x]) B = b
          generalize levenshtein A (B ++ [y]) = c
          generalize levenshtein (s :: A) B = p
          generalize levenshtein (s :: (A ++ [x])) B = q
          generalize levenshtein (s :: A) (B ++ [y]) = r
          generalize levenshtein A (t :: B) = u
          generalize levenshtein (A ++ [x]) (t :: B) = v
          generalize levenshtein A (t :: (B ++ [y])) = w
          split_ifs <;>
            first
              | rfl
              | (simp only [min_add_add_left]
                 simp only [min_assoc]
                 simp only [min_comm, min_left_comm])

theorem lev_snoc (x y : Char) (xs ys : List Char) :
    levenshtein (xs ++ [x]) (ys ++ [y]) =
      if x = y then levenshtein xs ys
      else 1 + min (levenshtein xs ys)
          (min (levenshtein (xs ++ [x]) ys) (levenshtein xs (ys ++ [y]))) :=
  lev_snoc_aux x y (xs.length + ys.length) xs ys le_rfl

/-- Levenshtein distance is invariant under reversing both arguments. -/
theorem lev_rev_aux : ∀ (n : Nat) (xs ys : List Char), xs.length + ys.length ≤ n →
    levenshtein xs.reverse ys.reverse = levenshtein xs ys := by
  intro n
  induction n with
  | zero =>
      intro xs ys h
      have hx : xs = [] := List.eq_nil_of_length_eq_zero (by omega)
      have hy : ys = [] := List.eq_nil_of_length_eq_zero (by omega)
      subst hx; subst hy; rfl
  | succ n ih =>
      intro xs ys h
      cases xs with
      | nil => simp [lev_nil_left]
      | cons x A =>
        cases ys with
        | nil => simp [lev_nil_right]
        | cons y B =>
          have hlen : A.length + B.length + 2 ≤ n + 1 := by simp at h; omega
          have h1 := ih A B (by omega)
          have h2 := ih (x :: A) B (by simp; omega)
          have h3 := ih A (y :: B) (by simp; omega)
          rw [List.reverse_cons, List.reverse_cons, lev_snoc]
          rw [← List.reverse_cons x A, ← List.reverse_cons y B]
          rw [h1, h2, h3, lev_cons_cons]

theorem lev_rev (xs ys : List Char) :
    levenshtein xs.reverse ys.reverse = levenshtein xs ys :=
  lev_rev_aux (xs.length + ys.length) xs ys le_rfl

/-- Levenshtein distance is symmetric. -/
theorem lev_symm_aux : ∀ (n : Nat) (xs ys : List Char), xs.length + ys.length ≤ n →
    levenshtein xs ys = levenshtein ys xs := by
  intro n
  induction n with
  | zero =>
      intro xs ys h
      have hx : xs = [] := List.eq_nil_of_length_eq_zero (by omega)
      have hy : ys = [] := List.eq_nil_of_length_eq_zero (by omega)
      subst hx; subst hy; rfl
  | succ n ih =>
      intro xs ys h
      cases xs with
      | nil => simp [lev_nil_left, lev_nil_right]
      | cons x A =>
        cases ys with
        | nil => simp [lev_nil_left, lev_nil_right]
        | cons y B =>
          have hlen : A.length + B.length + 2 ≤ n + 1 := by simp at h; omega
          have h1 := ih A B (by omega)
          have h2 := ih A (y :: B) (by simp; omega)
          have h3 := ih (x :: A) B (by simp; omega)
          rw [lev_cons_cons, lev_cons_cons]
          rw [h1, h2, h3]
          by_cases hxy : x = y
          · simp [hxy]
          · have hyx : ¬ y = x := fun hyx => hxy hyx.symm
            simp only [hxy, hyx, if_false]
            omega

theorem lev_symm (xs ys : List Char) : levenshtein xs ys = levenshtein ys xs :=
  lev_symm_aux (xs.length + ys.length) xs ys le_rfl

theorem lev_le_max (xs ys : List Char) :
    levenshtein xs ys ≤ max xs.length ys.length :=
  lev_le_max_aux (xs.length + ys.length) xs ys le_rfl

/-- One inner-loop step of the edit-distance matrix of `getEditDistance` in
`src/routes/claims.js`: the current row character is `c` (from `str2`), the
first list walks the remaining characters of `str1`, the second list is the
previous row from column `j - 1` on, and `left` is the entry just written at
column `j - 1` of the current row.  Each entry is
`if chars equal then diagonal else min (diagonal+1) (min (left+1) (up+1))`,
mirroring substitution / insertion / deletion. -/
def levRowAux (c : Char) : List Char → List Nat → Nat → List Nat
  | x :: xs, pd :: pu :: ps, left =>
      (if c = x then pd else min (pd + 1) (min (left + 1) (pu + 1))) ::
        levRowAux c xs (pu :: ps)
          (if c = x then pd else min (pd + 1) (min (left + 1) (pu + 1)))
  | _, _, _ => []

/-- The outer loop of `getEditDistance`: fold the matrix rows over the
characters of `str2`; `i` is the index of the last completed row, and each new
row starts with its row index (the `matrix[i] = [i]` initialization). -/
def levRows (s1 : List Char) : List Char → List Nat → Nat → List Nat
  | [], prev, _ => prev
  | c :: cs, prev, i =>
      levRows s1 cs ((i + 1) :: levRowAux c s1 prev (i + 1)) (i + 1)

/-- Embedding of `getEditDistance(str1, str2)` from `src/routes/claims.js`:
the dynamic-programming Levenshtein matrix over the two strings, returning
`matrix[str2.length][str1.length]`. -/
def getEditDistance (str1 str2 : String) : Nat :=
  (levRows str1.data str2.data (List.range (str1.data.length + 1)) 0).getD
    str1.data.length 0

/-- Specification of the suffix of a matrix row: the distances from `a` to the
reversals of `t ++ [s 0]`, `t ++ [s 0, s 1]`, …  (`t` is the already-consumed
prefix of `str1`). -/
def specRest (a : List Char) : List Char → List Char → List Nat
  | _, [] => []
  | t, x :: xs => levenshtein a (t ++ [x]).reverse :: specRest a (t ++ [x]) xs

/-- Specification of a full matrix row: distances from `a` to the reversals of
every prefix of `str1` extending `t`. -/
def specRow (a t s : List Char) : List Nat :=
  levenshtein a t.reverse :: specRest a t s

theorem specRow_cons (a t : List Char) (x : Char) (xs : List Char) :
    specRow a t (x :: xs) = levenshtein a t.reverse :: specRow a (t ++ [x]) xs :=
  rfl

/-- The matrix cell recurrence computes the Levenshtein distance of the
extended prefixes. -/
theorem lev_entry (c x : Char) (a t : List Char) :
    (if c = x then levenshtein a t.reverse
     else min (levenshtein a t.reverse + 1)
       (min (levenshtein (c :: a) t.reverse + 1)
            (levenshtein a (t ++ [x]).reverse + 1)))
    = levenshtein (c :: a) (t ++ [x]).reverse := by
  have hrev : (t ++ [x]).reverse = x :: t.reverse := by simp
  rw [hrev, lev_cons_cons c x a t.reverse]
  split_ifs <;> omega

/-- The inner loop maps a correct previous row to the tail of the correct next
row. -/
theorem levRowAux_spec (c : Char) (a : List Char) :
    ∀ (s t : List Char),
      levRowAux c s (specRow a t s) (levenshtein (c :: a) t.reverse) =
        specRest (c :: a) t s := by
  intro s
  induction s with
  | nil => intro t; rfl
  | cons x xs ih =>
      intro t
      show levRowAux c (x :: xs)
          (levenshtein a t.reverse ::
            levenshtein a (t ++ [x]).reverse :: specRest a (t ++ [x]) xs)
          (levenshtein (c :: a) t.reverse) = _
      simp only [levRowAux]
      rw [lev_entry c x a t]
      show _ :: levRowAux c xs (specRow a (t ++ [x]) xs)
            (levenshtein (c :: a) (t ++ [x]).reverse) = _
      rw [ih (t ++ [x])]
      rfl

/-- The outer loop maps the row for prefix `p` of `str2` to the row for
`p ++ s2`. -/
theorem levRows_spec (s1 : List Char) :
    ∀ (s2 p : List Char),
      levRows s1 s2 (specRow p.reverse [] s1) p.length =
        specRow (p ++ s2).reverse [] s1 := by
  intro s2
  induction s2 with
  | nil => intro p; simp [levRows]
  | cons c cs ih =>
      intro p
      simp only [levRows]
      have haux := levRowAux_spec c p.reverse s1 []
      simp only [List.reverse_nil] at haux
      rw [lev_nil_right] at haux
      simp only [List.length_cons, List.length_reverse] at haux
      rw [haux]
      have hhead : specRow (c :: p.reverse) [] s1 =
          (p.length + 1) :: specRest (c :: p.reverse) [] s1 := by
        simp [specRow, lev_nil_right]
      rw [← hhead]
      have hih := ih (p ++ [c])
      have hcp : (p ++ [c]).reverse = c :: p.reverse := by simp
      have hlen2 : (p ++ [c]).length = p.length + 1 := by simp
      have happ : (p ++ [c]) ++ cs = p ++ (c :: cs) := by simp
      rw [hcp, hlen2, happ] at hih
      exact hih

/-- The initial row `[0, 1, …, n]` is the specification row for the empty
prefix of `str2`. -/
theorem specRow_nil_char : ∀ (s t : List Char),
    specRow ([] : List Char) t s = (List.range (s.length + 1)).map (t.length + ·) := by
  intro s
  induction s with
  | nil =>
      intro t
      simp [specRow, specRest, lev_nil_left, List.range_succ, List.range_zero]
  | cons x xs ih =>
      intro t
      rw [specRow_cons, ih (t ++ [x])]
      simp only [List.length_cons]
      have hsplit : (List.range (xs.length + 1 + 1)).map (t.length + ·) =
          t.length :: (List.range (xs.length + 1)).map (fun i => t.length + 1 + i) := by
        rw [List.range_succ_eq_map]
        simp only [List.map_cons, Nat.add_zero, List.map_map]
        refine congrArg _ ?_
        apply List.map_congr_left
        intro i _
        simp only [Function.comp_apply]
        omega
      rw [hsplit]
      simp [lev_nil_left, List.length_append]

/-- Reading off the last cell of a specification row. -/
theorem specRow_getD (a : List Char) : ∀ (s t : List Char),
    (specRow a t s).getD s.length 0 = levenshtein a (t ++ s).reverse := by
  intro s
  induction s with
  | nil => intro t; simp [specRow, specRest]
  | cons x xs ih =>
      intro t
      rw [specRow_cons]
      simp only [List.length_cons, List.getD_cons_succ]
      rw [ih (t ++ [x])]
      simp

/-- The dynamic-programming matrix of the source computes exactly the standard
Levenshtein distance of the two strings. -/
theorem getEditDistance_eq (str1 str2 : String) :
    getEditDistance str1 str2 = levenshtein str1.data str2.data := by
  unfold getEditDistance
  have hinit : List.range (str1.data.length + 1) =
      specRow ([] : List Char) [] str1.data := by
    rw [specRow_nil_char]
    simp
  rw [hinit]
  have hrows := levRows_spec str1.data str2.data []
  simp only [List.reverse_nil, List.length_nil, List.nil_append] at hrows
  rw [hrows, specRow_getD]
  simp only [List.nil_append]
  rw [lev_rev, lev_symm]

/-- Embedding of `calculateSimilarity(str1, str2)` from `src/routes/claims.js`:
1 for identical strings, otherwise the normalized edit distance
`(longer.length - editDistance) / longer.length` where `longer` is the longer
of the two arguments (ties resolved to `str2` as in the source conditional
`str1.length > str2.length ? str1 : str2`). -/
def calculateSimilarity (str1 str2 : String) : ℚ :=
  if str1 = str2 then 1
  else
    let longer := if str2.length < str1.length then str1 else str2
    let shorter := if str2.length < str1.length then str2 else str1
    if longer.length = 0 then 1
    else ((longer.length : ℚ) - (getEditDistance longer shorter : ℚ)) /
      (longer.length : ℚ)

/-- Character-level model of JavaScript `toLowerCase()`. -/
def toLowerStr (s : String) : String := ⟨s.data.map Char.toLower⟩

/-- Character-level model of JavaScript `trim()`: drop whitespace from both
ends. -/
def trimStr (s : String) : String :=
  ⟨((s.data.dropWhile Char.isWhitespace).reverse.dropWhile
      Char.isWhitespace).reverse⟩

/-- The normalization `answer.toLowerCase().trim()` applied to both the stored
and the submitted answer in the comparison loop of `router.post` in
`src/routes/claims.js`. -/
def normalizeAnswer (s : String) : String := trimStr (toLowerStr s)

/-- Per-question comparator from the claim-submission loop of
`src/routes/claims.js` (lines 136-151): exact normalized equality, otherwise —
only when both normalized strings are longer than 3 characters — the
similarity fallback with strict threshold 0.8. -/
def answerIsCorrect (storedAnswer submittedAnswer : String) : Bool :=
  if normalizeAnswer storedAnswer = normalizeAnswer submittedAnswer then
    true
  else
    if 3 < (normalizeAnswer storedAnswer).length ∧
        3 < (normalizeAnswer submittedAnswer).length then
      decide ((0.8 : ℚ) <
        calculateSimilarity (normalizeAnswer storedAnswer)
          (normalizeAnswer submittedAnswer))
    else false

/-- The threshold `requiredCorrect = Math.max(2, Math.ceil(total * 0.8))` from
`src/routes/claims.js` line 167.  `Math.ceil(total * 0.8)` is written as the
natural ceiling division `(4 * total + 4) / 5`; the lemma `ceil_point_eight`
below shows this equals `⌈total * 0.8⌉₊` over `ℚ`. -/
def requiredCorrect (total : Nat) : Nat := max 2 ((4 * total + 4) / 5)

/-- The review threshold `Math.ceil(total * 0.6)` of the second status branch
(`src/routes/claims.js` line 173), as the natural ceiling division
`(3 * total + 4) / 5`; the lemma `ceil_point_six` below shows this equals
`⌈total * 0.6⌉₊` over `ℚ`. -/
def reviewThreshold (total : Nat) : Nat := (3 * total + 4) / 5

/-- The three-way aggregate decision of the claim evaluator.  `strong` is the
first branch (`correctAnswers >= requiredCorrect`, reported with the
"Great match" message), `medium` the second (60% threshold met, the
"Good partial match" proof path) and `weak` the fallthrough (manual review
message). -/
inductive MatchClass
  | strong
  | medium
  | weak
deriving DecidableEq

/-- The evaluator branch structure of `router.post` in `src/routes/claims.js`
(lines 166-175 together with the message selection in lines 195-204). -/
def classifyClaim (correct total : Nat) : MatchClass :=
  if requiredCorrect total ≤ correct then MatchClass.strong
  else if reviewThreshold total ≤ correct then MatchClass.medium
  else MatchClass.weak

/-- Item lifecycle status (`items.status`). -/
inductive ItemStatus
  | active
  | claimed
  | returned
  | closed
deriving DecidableEq

/-- Claim lifecycle status (`claims.claim_status` enumeration of the schema in
`init-claim-database.js`). -/
inductive ClaimStatus
  | pending_verification
  | awaiting_proof
  | proof_submitted
  | approved
  | rejected
  | completed
deriving DecidableEq

/-- The claim status chosen at submission time (`src/routes/claims.js` lines
168-175): `awaiting_proof` when `correctAnswers >= requiredCorrect`, again
`awaiting_proof` when the 60% threshold is met, `pending_verification`
otherwise. -/
def claimStatusFor (correct total : Nat) : ClaimStatus :=
  if requiredCorrect total ≤ correct then ClaimStatus.awaiting_proof
  else if reviewThreshold total ≤ correct then ClaimStatus.awaiting_proof
  else ClaimStatus.pending_verification

/-- A stored verification question/answer pair (`items.verification_questions`
entries). -/
structure VerificationQuestion where
  question : String
  answer : String
deriving DecidableEq

/-- One per-question comparison record pushed onto `answerComparisons`
(`src/routes/claims.js` lines 157-163). -/
structure AnswerComparison where
  question : String
  correct_answer : String
  user_answer : String
  is_correct : Bool
  similarity : ℚ
deriving DecidableEq

/-- An `items` row joined with its reporting user (only the fields the claim
routes read). -/
structure Item where
  item_id : Nat
  item_owner_id : Nat
  title : String
  status : ItemStatus
  verification_questions : List VerificationQuestion
  preferred_contact : Option String
deriving DecidableEq

/-- A `claims` row (`init-claim-database.js` schema; timestamps modelled as
optional abstract instants). -/
structure Claim where
  claim_id : Nat
  item_id : Nat
  claimant_id : Nat
  item_owner_id : Nat
  claim_status : ClaimStatus
  verification_answers : List AnswerComparison
  aadhar_proof : Option String
  admin_notes : Option String
  proof_verified : Option Bool
  contact_revealed : Bool
  created_at : Nat
  proof_submitted_at : Option Nat
  approved_at : Option Nat
  completed_at : Option Nat
deriving DecidableEq

/-- A `users` row (contact fields only). -/
structure UserRec where
  user_id : Nat
  first_name : String
  last_name : String
  email : String
  phone : String
deriving DecidableEq

/-- The relational state visible to the claim routes. -/
structure DB where
  users : List UserRec
  items : List Item
  claims : List Claim
  nextClaimId : Nat
deriving DecidableEq

/-- Failure outcomes of `POST /api/claims` (`src/routes/claims.js` lines
65-227): the 400 missing-field response, the 404 unavailable-item response,
the self-claim 400, the duplicate-claim 400, the no-questions 400 and the
answer-count 400 (the `ValidationError` of the specification). -/
inductive SubmitError
  | missingFields
  | itemNotFound
  | selfClaim
  | duplicateClaim
  | noQuestions
  | answerCountMismatch
deriving DecidableEq

/-- The 201 response payload of a successful claim submission (claim row plus
the reported counts and match class driving the response message). -/
structure SubmitOk where
  claim : Claim
  correct_answers : Nat
  total_questions : Nat
  matchClass : MatchClass
deriving DecidableEq

/-- The `verificationQuestions.forEach` loop of `router.post` in
`src/routes/claims.js` (lines 133-164): count correct answers and build the
comparison records in order. -/
def evaluateAnswers (questions : List VerificationQuestion)
    (answers : List String) : Nat × List AnswerComparison :=
  (questions.zip answers).foldl
    (fun acc qa =>
      (acc.1 + (if answerIsCorrect qa.1.answer qa.2 then 1 else 0),
       acc.2 ++ [{ question := qa.1.question
                   correct_answer := qa.1.answer
                   user_answer := qa.2
                   is_correct := answerIsCorrect qa.1.answer qa.2
                   similarity := calculateSimilarity
                     (normalizeAnswer qa.1.answer) (normalizeAnswer qa.2) }]))
    (0, [])

/-- Embedding of `POST /api/claims` (`src/routes/claims.js` lines 65-227,
first document: the proof-required variant).  Checks run in source order:
missing fields, active-item lookup, self claim, duplicate claim, questions
present, answer count; then the evaluator runs and the claim row is inserted
with `contact_revealed = false`.  On an error path the state is returned
unchanged. -/
def submitClaim (db : DB) (userId itemId : Nat)
    (verificationAnswers : List String) (now : Nat) :
    DB × Except SubmitError SubmitOk :=
  if itemId = 0 then (db, .error .missingFields)
  else
    match db.items.find? fun i =>
        i.item_id == itemId && i.status == ItemStatus.active with
    | none => (db, .error .itemNotFound)
    | some item =>
      if item.item_owner_id = userId then (db, .error .selfClaim)
      else if db.claims.any fun c =>
          c.item_id == itemId && c.claimant_id == userId then
        (db, .error .duplicateClaim)
      else if item.verification_questions.length = 0 then
        (db, .error .noQuestions)
      else if verificationAnswers.length ≠ item.verification_questions.length then
        (db, .error .answerCountMismatch)
      else
        ({ db with
            claims := db.claims ++
              [{ claim_id := db.nextClaimId
                 item_id := itemId
                 claimant_id := userId
                 item_owner_id := item.item_owner_id
                 claim_status := claimStatusFor
                   (evaluateAnswers item.verification_questions
                     verificationAnswers).1
                   item.verification_questions.length
                 verification_answers := (evaluateAnswers
                   item.verification_questions verificationAnswers).2
                 aadhar_proof := none
                 admin_notes := none
                 proof_verified := none
                 contact_revealed := false
                 created_at := now
                 proof_submitted_at := none
                 approved_at := none
                 completed_at := none }]
            nextClaimId := db.nextClaimId + 1 },
         .ok { claim :=
                 { claim_id := db.nextClaimId
                   item_id := itemId
                   claimant_id := userId
                   item_owner_id := item.item_owner_id
                   claim_status := claimStatusFor
                     (evaluateAnswers item.verification_questions
                       verificationAnswers).1
                     item.verification_questions.length
                   verification_answers := (evaluateAnswers
                     item.verification_questions verificationAnswers).2
                   aadhar_proof := none
                   admin_notes := none
                   proof_verified := none
                   contact_revealed := false
                   created_at := now
                   proof_submitted_at := none
                   approved_at := none
                   completed_at := none }
               correct_answers := (evaluateAnswers
                 item.verification_questions verificationAnswers).1
               total_questions := item.verification_questions.length
               matchClass := classifyClaim
                 (evaluateAnswers item.verification_questions
                   verificationAnswers).1
                 item.verification_questions.length })

/-- The row selected by the contact and complete routes: the claim with the
given id, visible only to the item owner or the claimant (the SQL
`WHERE c.claim_id = ? AND (c.item_owner_id = ? OR c.claimant_id = ?)`). -/
def partyRow (db : DB) (claimId userId : Nat) : Option Claim :=
  db.claims.find? fun c =>
    c.claim_id == claimId &&
      (c.item_owner_id == userId || c.claimant_id == userId)

/-- The row selected by the approve/reject/verify-proof routes: the claim with
the given id, visible only to the item owner. -/
def ownerRow (db : DB) (claimId userId : Nat) : Option Claim :=
  db.claims.find? fun c =>
    c.claim_id == claimId && c.item_owner_id == userId

/-- The row selected by the proof-upload route: the claim with the given id,
visible only to the claimant. -/
def claimantRow (db : DB) (claimId userId : Nat) : Option Claim :=
  db.claims.find? fun c =>
    c.claim_id == claimId && c.claimant_id == userId

/-- Failure outcomes of `GET /api/claims/:id/contact`: the 404
"Claim not found or access denied" response and the 403
"Contact information is only available for approved claims" response (the
`AuthorizationError` of the specification). -/
inductive ContactError
  | notFoundOrAccessDenied
  | notApproved
deriving DecidableEq

/-- The contact payload of `GET /api/claims/:id/contact`. -/
structure ContactInfo where
  name : String
  email : String
  phone : String
  preferred_contact : String
  item_title : String
deriving DecidableEq

/-- Embedding of `GET /api/claims/:id/contact` (`src/routes/claims.js` lines
485-541): the query joins the claim (gated on the caller being owner or
claimant) with its item and the claimant user; a missing row is the 404;
a non-approved claim is the 403; otherwise the claimant contact details are
returned. -/
def getContact (db : DB) (claimId userId : Nat) :
    Except ContactError ContactInfo :=
  match partyRow db claimId userId with
  | none => .error .notFoundOrAccessDenied
  | some c =>
    match db.items.find? fun i => i.item_id == c.item_id,
          db.users.find? fun u => u.user_id == c.claimant_id with
    | some item, some user =>
        if c.claim_status ≠ ClaimStatus.approved then .error .notApproved
        else
          .ok { name := user.first_name ++ " " ++ user.last_name
                email := user.email
                phone := user.phone
                preferred_contact := item.preferred_contact.getD "email"
                item_title := item.title }
    | _, _ => .error .notFoundOrAccessDenied

/-- Failure outcome shared by the approve and complete routes: the 404
"Claim not found or access denied" response. -/
inductive ActionError
  | notFoundOrAccessDenied
deriving DecidableEq

/-- Embedding of `PUT /api/claims/:id/approve` (`src/routes/claims.js` lines
546-590): after the owner-gated lookup, the claim is set to `approved` with
`approved_at` and `contact_revealed = TRUE`, and the item is set to `claimed`.
No precondition on the current claim status is checked. -/
def approveClaim (db : DB) (claimId userId now : Nat) :
    DB × Except ActionError Unit :=
  match ownerRow db claimId userId with
  | none => (db, .error .notFoundOrAccessDenied)
  | some c =>
      ({ db with
          claims := db.claims.map fun x =>
            if x.claim_id = claimId then
              { x with claim_status := ClaimStatus.approved
                       approved_at := some now
                       contact_revealed := true }
            else x
          items := db.items.map fun i =>
            if i.item_id = c.item_id then
              { i with status := ItemStatus.claimed }
            else i },
       .ok ())

/-- Embedding of `PUT /api/claims/:id/complete` (`src/routes/claims.js` lines
639-682): after the either-party lookup, the claim is set to `completed` with
`completed_at`, and the item is set to `returned`.  No precondition on the
current claim status is checked. -/
def completeClaim (db : DB) (claimId userId now : Nat) :
    DB × Except ActionError Unit :=
  match partyRow db claimId userId with
  | none => (db, .error .notFoundOrAccessDenied)
  | some c =>
      ({ db with
          claims := db.claims.map fun x =>
            if x.claim_id = claimId then
              { x with claim_status := ClaimStatus.completed
                       completed_at := some now }
            else x
          items := db.items.map fun i =>
            if i.item_id = c.item_id then
              { i with status := ItemStatus.returned }
            else i },
       .ok ())

/-- Failure outcomes of `POST /api/claims/:id/proof` (`src/routes/claims.js`
lines 232-292): missing file (400), claim not found / not the claimant (404),
and the 400 wrong-state response
"Proof can only be submitted for claims awaiting proof". -/
inductive ProofError
  | missingFile
  | notFoundOrAccessDenied
  | wrongState
deriving DecidableEq

/-- Embedding of `POST /api/claims/:id/proof`: requires an uploaded file and
the claimant-gated lookup; accepts only claims in `awaiting_proof` or
`proof_submitted`, storing the proof path, the `proof_submitted` status and
the submission timestamp. -/
def submitProof (db : DB) (claimId userId : Nat) (file : Option String)
    (now : Nat) : DB × Except ProofError Unit :=
  match file with
  | none => (db, .error .missingFile)
  | some filename =>
    match claimantRow db claimId userId with
    | none => (db, .error .notFoundOrAccessDenied)
    | some c =>
      if c.claim_status = ClaimStatus.awaiting_proof ∨
          c.claim_status = ClaimStatus.proof_submitted then
        ({ db with
            claims := db.claims.map fun x =>
              if x.claim_id = claimId then
                { x with aadhar_proof := some ("/documents/" ++ filename)
                         claim_status := ClaimStatus.proof_submitted
                         proof_submitted_at := some now }
              else x },
         .ok ())
      else (db, .error .wrongState)

/-- Fixture: an active item owned by user 10 with two verification
questions. -/
def itemA : Item :=
  { item_id := 1
    item_owner_id := 10
    title := "Black Wallet"
    status := ItemStatus.active
    verification_questions :=
      [{ question := "What colour is it?", answer := "black leather" },
       { question := "What brand is it?", answer := "nike" }]
    preferred_contact := none }

/-- Fixture: a database holding only `itemA`. -/
def dbA : DB := { users := [], items := [itemA], claims := [], nextClaimId := 1 }

/-- Fixture: an existing claim by user 2 on item 1 (owned by user 10). -/
def claimB : Claim :=
  { claim_id := 1
    item_id := 1
    claimant_id := 2
    item_owner_id := 10
    claim_status := ClaimStatus.pending_verification
    verification_answers := []
    aadhar_proof := none
    admin_notes := none
    proof_verified := none
    contact_revealed := false
    created_at := 0
    proof_submitted_at := none
    approved_at := none
    completed_at := none }

/-- Fixture: `itemA` after being claimed (status no longer `active`). -/
def itemB : Item := { itemA with status := ItemStatus.claimed }

/-- Fixture: user 2 already has a claim on item 1, and the item has left the
`active` status. -/
def dbB1 : DB :=
  { users := [], items := [itemB], claims := [claimB], nextClaimId := 2 }

/-- Fixture: user 2 already has a claim on item 1, and the item is still
`active`. -/
def dbB2 : DB :=
  { users := [], items := [itemA], claims := [claimB], nextClaimId := 2 }

/-- Fixture: an approved claim with contact revealed (claimant 2, owner 10). -/
def claimC : Claim :=
  { claimB with
      claim_status := ClaimStatus.approved
      contact_revealed := true
      approved_at := some 3 }

/-- Fixture: the claimant user record for the contact route. -/
def userC : UserRec :=
  { user_id := 2
    first_name := "Jane"
    last_name := "Doe"
    email := "jane@campus.edu"
    phone := "12345" }

/-- Fixture: database for the contact route with an approved claim. -/
def dbC : DB :=
  { users := [userC], items := [itemB], claims := [claimC], nextClaimId := 2 }

/-- Fixture: database with a pending (not approved) claim for the complete
route. -/
def dbD : DB :=
  { users := [userC], items := [itemB], claims := [claimB], nextClaimId := 2 }

/-- Fixture: a rejected claim (claimant 2, owner 10). -/
def claimE : Claim := { claimB with claim_status := ClaimStatus.rejected }

/-- Fixture: database with a rejected claim for the approve route. -/
def dbE : DB :=
  { users := [userC], items := [itemB], claims := [claimE], nextClaimId := 2 }

/-- Fixture: a claim awaiting proof (claimant 2, owner 10). -/
def claimF : Claim := { claimB with claim_status := ClaimStatus.awaiting_proof }

/-- Fixture: database with a claim awaiting proof for the proof route. -/
def dbF : DB :=
  { users := [userC], items := [itemB], claims := [claimF], nextClaimId := 2 }

/-- Fixture: the claim row created by submitting both correct answers for
`itemA` (user 2, time 7). -/
def claimG : Claim :=
  { claim_id := 1
    item_id := 1
    claimant_id := 2
    item_owner_id := 10
    claim_status := ClaimStatus.awaiting_proof
    verification_answers :=
      [{ question := "What colour is it?"
         correct_answer := "black leather"
         user_answer := "black leather"
         is_correct := true
         similarity := calculateSimilarity (normalizeAnswer "black leather")
           (normalizeAnswer "black leather") },
       { question := "What brand is it?"
         correct_answer := "nike"
         user_answer := "nike"
         is_correct := true
         similarity := calculateSimilarity (normalizeAnswer "nike")
           (normalizeAnswer "nike") }]
    aadhar_proof := none
    admin_notes := none
    proof_verified := none
    contact_revealed := false
    created_at := 7
    proof_submitted_at := none
    approved_at := none
    completed_at := none }

/-- Fixture: the full 201 payload of that submission (a strong match: both
answers correct, `required = 2`). -/
def resG : SubmitOk :=
  { claim := claimG
    correct_answers := 2
    total_questions := 2
    matchClass := MatchClass.strong }

/-- The ceiling `Math.ceil(t * 0.8)` over `ℚ` agrees with the natural ceiling division
used in `requiredCorrect`. -/
theorem ceil_point_eight (t : Nat) : ⌈(t : ℚ) * 0.8⌉₊ = (4 * t + 4) / 5 := by
  have h8 : (t : ℚ) * 0.8 = (4 * t : ℚ) / 5 := by ring_nf
  rw [h8]
  rcases Nat.eq_zero_or_pos t with ht | ht
  · subst ht; norm_num
  · have hne : (4 * t + 4) / 5 ≠ 0 := by omega
    rw [Nat.ceil_eq_iff hne]
    constructor
    · rw [lt_div_iff₀ (show (0 : ℚ) < 5 by norm_num)]
      have hlt : ((4 * t + 4) / 5 - 1) * 5 < 4 * t := by omega
      exact_mod_cast hlt
    · rw [div_le_iff₀ (show (0 : ℚ) < 5 by norm_num)]
      have hle : 4 * t ≤ (4 * t + 4) / 5 * 5 := by omega
      exact_mod_cast hle

/-- The ceiling `Math.ceil(t * 0.6)` over `ℚ` agrees with the natural ceiling division
used in `reviewThreshold`. -/
theorem ceil_point_six (t : Nat) : ⌈(t : ℚ) * 0.6⌉₊ = (3 * t + 4) / 5 := by
  have h6 : (t : ℚ) * 0.6 = (3 * t : ℚ) / 5 := by ring_nf
  rw [h6]
  rcases Nat.eq_zero_or_pos t with ht | ht
  · subst ht; norm_num
  · have hne : (3 * t + 4) / 5 ≠ 0 := by omega
    rw [Nat.ceil_eq_iff hne]
    constructor
    · rw [lt_div_iff₀ (show (0 : ℚ) < 5 by norm_num)]
      have hlt : ((3 * t + 4) / 5 - 1) * 5 < 3 * t := by omega
      exact_mod_cast hlt
    · rw [div_le_iff₀ (show (0 : ℚ) < 5 by norm_num)]
      have hle : 3 * t ≤ (3 * t + 4) / 5 * 5 := by omega
      exact_mod_cast hle

/-- Claim C1: the per-question comparator judges the submitted answer correct
iff the normalized strings are equal, or both normalized strings have length
strictly greater than 3 and their similarity ratio exceeds 0.8; a mismatched
pair with either side of length at most 3 is always judged incorrect. -/
theorem answer_comparator (stored submitted : String) :
    (answerIsCorrect stored submitted = true ↔
      (normalizeAnswer stored = normalizeAnswer submitted ∨
        (3 < (normalizeAnswer stored).length ∧
         3 < (normalizeAnswer submitted).length ∧
         (0.8 : ℚ) <
           calculateSimilarity (normalizeAnswer stored)
             (normalizeAnswer submitted)))) ∧
    (normalizeAnswer stored ≠ normalizeAnswer submitted →
      ((normalizeAnswer stored).length ≤ 3 ∨
        (normalizeAnswer submitted).length ≤ 3) →
      answerIsCorrect stored submitted = false) := by
  constructor
  · unfold answerIsCorrect
    split_ifs with h1 h2
    · simp [h1]
    · simp only [decide_eq_true_eq]
      constructor
      · intro hs
        exact Or.inr ⟨h2.1, h2.2, hs⟩
      · rintro (hs | hs)
        · exact absurd hs h1
        · exact hs.2.2
    · constructor
      · intro hf
        exact absurd hf (by simp)
      · rintro (hs | hs)
        · exact absurd hs h1
        · exact absurd ⟨hs.1, hs.2.1⟩ h2
  · intro hne hshort
    unfold answerIsCorrect
    rw [if_neg hne, if_neg]
    rintro ⟨ha, hb⟩
    rcases hshort with hs | hs <;> omega

/-- Claim C1 witness: a mismatched short pair is judged incorrect. -/
theorem answer_comparator_witness : answerIsCorrect "abc" "abd" = false :=
  (answer_comparator "abc" "abd").2 (by decide) (by decide)

/-- Claim C2: the evaluator computes `required = max(2, ceil(total * 0.8))`
(with `required 2 = 2` and `required 5 = 4`) and classifies the claim as a
strong match iff `correct >= required`, as a partial match iff
`ceil(total * 0.6) <= correct < required`, and as a weak match iff
`correct < ceil(total * 0.6)`; strong and partial matches are stored as
`awaiting_proof`, weak matches as `pending_verification`. -/
theorem claim_classification (correct total : Nat) (h : 1 ≤ total) :
    requiredCorrect total = max 2 ⌈(total : ℚ) * 0.8⌉₊ ∧
    requiredCorrect 2 = 2 ∧
    requiredCorrect 5 = 4 ∧
    (classifyClaim correct total = MatchClass.strong ↔
      requiredCorrect total ≤ correct) ∧
    (classifyClaim correct total = MatchClass.medium ↔
      (⌈(total : ℚ) * 0.6⌉₊ ≤ correct ∧ correct < requiredCorrect total)) ∧
    (classifyClaim correct total = MatchClass.weak ↔
      correct < ⌈(total : ℚ) * 0.6⌉₊) ∧
    claimStatusFor correct total =
      (match classifyClaim correct total with
        | MatchClass.strong => ClaimStatus.awaiting_proof
        | MatchClass.medium => ClaimStatus.awaiting_proof
        | MatchClass.weak => ClaimStatus.pending_verification) := by
  rw [ceil_point_eight, ceil_point_six]
  refine ⟨rfl, by decide, by decide, ?_, ?_, ?_, ?_⟩ <;>
    · simp only [classifyClaim, claimStatusFor, requiredCorrect, reviewThreshold]
      split_ifs with h1 h2 <;> simp_all <;> omega

/-- Claim C2 witness: five questions with four correct answers are a strong
match with `required = 4`. -/
theorem claim_classification_witness :
    requiredCorrect 5 = 4 ∧
    (classifyClaim 4 5 = MatchClass.strong ↔ requiredCorrect 5 ≤ 4) :=
  ⟨(claim_classification 4 5 (by decide)).2.2.1,
   (claim_classification 4 5 (by decide)).2.2.2.1⟩

/-- Claim C3: `calculateSimilarity(a, b)` equals
`(max_len - levenshtein(a, b)) / max_len` with `max_len` the longer length,
the result lies in `[0, 1]`, and identical strings give 1 (for non-empty
input the formula and the short-circuit agree). -/
theorem similarity_formula (a b : String) (h : a ≠ "" ∨ b ≠ "") :
    calculateSimilarity a b =
      (((max a.length b.length : Nat) : ℚ) - (levenshtein a.data b.data : ℚ)) /
        ((max a.length b.length : Nat) : ℚ) ∧
    0 ≤ calculateSimilarity a b ∧
    calculateSimilarity a b ≤ 1 ∧
    (a = b → calculateSimilarity a b = 1) := by
  have hmaxpos : 0 < max a.length b.length := by
    rcases h with hne | hne
    · exact lt_of_lt_of_le (List.length_pos.2 fun hd => hne (String.ext hd))
        (le_max_left _ _)
    · exact lt_of_lt_of_le (List.length_pos.2 fun hd => hne (String.ext hd))
        (le_max_right _ _)
  have hmaxQ : (0 : ℚ) < ((max a.length b.length : Nat) : ℚ) := by
    exact_mod_cast hmaxpos
  by_cases hab : a = b
  · subst hab
    have hsim : calculateSimilarity a a = 1 := by
      unfold calculateSimilarity
      rw [if_pos rfl]
    have hQ : ((a.length : ℚ)) ≠ 0 := by
      have : (0 : ℚ) < (a.length : ℚ) := by
        simpa using hmaxQ
      exact ne_of_gt this
    refine ⟨?_, ?_, ?_, fun _ => hsim⟩
    · rw [hsim, lev_self, max_self, Nat.cast_zero, sub_zero, div_self hQ]
    · rw [hsim]; norm_num
    · rw [hsim]
  · have hform : calculateSimilarity a b =
        (((max a.length b.length : Nat) : ℚ) - (levenshtein a.data b.data : ℚ)) /
          ((max a.length b.length : Nat) : ℚ) := by
      simp only [calculateSimilarity, if_neg hab]
      by_cases hlen : b.length < a.length
      · simp only [if_pos hlen]
        rw [if_neg (show ¬a.length = 0 by omega), getEditDistance_eq,
          max_eq_left (Nat.le_of_lt hlen)]
      · simp only [if_neg hlen]
        have hble : a.length ≤ b.length := Nat.le_of_not_lt hlen
        have hb0 : ¬b.length = 0 := by
          intro h0
          apply hab
          apply String.ext
          have hlen_a : a.length = a.data.length := rfl
          have hlen_b : b.length = b.data.length := rfl
          have ha' : a.data = [] := List.eq_nil_of_length_eq_zero (by omega)
          have hb' : b.data = [] := List.eq_nil_of_length_eq_zero (by omega)
          rw [ha', hb']
        rw [if_neg hb0, getEditDistance_eq, lev_symm b.data a.data,
          max_eq_right hble]
    have hd : (levenshtein a.data b.data : ℚ) ≤
        ((max a.length b.length : Nat) : ℚ) := by
      have hle : levenshtein a.data b.data ≤ max a.length b.length :=
        lev_le_max a.data b.data
      exact_mod_cast hle
    refine ⟨hform, ?_, ?_, fun hh => absurd hh hab⟩
    · rw [hform]
      apply div_nonneg (by linarith) (le_of_lt hmaxQ)
    · rw [hform, div_le_one hmaxQ]
      have hnn : (0 : ℚ) ≤ (levenshtein a.data b.data : ℚ) := by positivity
      linarith

/-- Claim C3 witness: the similarity of two concrete distinct non-empty
strings is within `[0, 1]`. -/
theorem similarity_formula_witness :
    ("kitten" : String) ≠ "" ∧
    0 ≤ calculateSimilarity "kitten" "sitting" ∧
    calculateSimilarity "kitten" "sitting" ≤ 1 :=
  ⟨by decide,
   (similarity_formula "kitten" "sitting" (Or.inl (by decide))).2.1,
   (similarity_formula "kitten" "sitting" (Or.inl (by decide))).2.2.1⟩

/-- The status stored at submission is always one of `awaiting_proof` and
`pending_verification`. -/
theorem claimStatusFor_cases (c t : Nat) :
    claimStatusFor c t = ClaimStatus.awaiting_proof ∨
      claimStatusFor c t = ClaimStatus.pending_verification := by
  unfold claimStatusFor
  split_ifs <;> simp

/-- The status stored at submission is never `approved`. -/
theorem claimStatusFor_ne_approved (c t : Nat) :
    claimStatusFor c t ≠ ClaimStatus.approved := by
  unfold claimStatusFor
  split_ifs <;> simp

/-- Claim C4: with an active item carrying at least one verification question,
a submission by a non-owner without an existing claim whose answer list has
the wrong length fails with the validation error (HTTP 400), the state is
unchanged, and the outcome is independent of the answer contents (no
comparison is attempted). -/
theorem answer_count_validation (db : DB) (userId itemId now : Nat)
    (answers : List String) (item : Item)
    (h0 : itemId ≠ 0)
    (hitem : (db.items.find? fun i =>
        i.item_id == itemId && i.status == ItemStatus.active) = some item)
    (hself : item.item_owner_id ≠ userId)
    (hdup : (db.claims.any fun c =>
        c.item_id == itemId && c.claimant_id == userId) = false)
    (hq : item.verification_questions.length ≠ 0)
    (hlen : answers.length ≠ item.verification_questions.length) :
    submitClaim db userId itemId answers now =
      (db, .error SubmitError.answerCountMismatch) ∧
    ∀ answers' : List String, answers'.length = answers.length →
      submitClaim db userId itemId answers' now =
        (db, .error SubmitError.answerCountMismatch) := by
  constructor
  · simp [submitClaim, h0, hitem, hself, hdup, hq, hlen]
  · intro answers' hlen'
    have hlen'' : answers'.length ≠ item.verification_questions.length := by
      rw [hlen']; exact hlen
    simp [submitClaim, h0, hitem, hself, hdup, hq, hlen'']

/-- Claim C4 witness: one answer against two questions is rejected with the
validation error. -/
theorem answer_count_validation_witness :
    submitClaim dbA 2 1 ["black leather"] 7 =
      (dbA, .error SubmitError.answerCountMismatch) :=
  (answer_count_validation dbA 2 1 7 ["black leather"] itemA (by decide)
    (by decide) (by decide) (by decide) (by decide) (by decide)).1

/-- Claim C5 (amended): a submission by a claimant who already has a claim on
the item always fails without touching the state; when the item is still
listed `active` and the claimant is not its owner, the failure is
specifically the duplicate-claim error.  (When the item has left the `active`
status the earlier availability lookup fails first with the not-found
error — see the counterexample.) -/
theorem duplicate_claim_amended (db : DB) (userId itemId now : Nat)
    (answers : List String)
    (hdup : ∃ c ∈ db.claims, c.item_id = itemId ∧ c.claimant_id = userId) :
    ((submitClaim db userId itemId answers now).1 = db ∧
      ∃ e, (submitClaim db userId itemId answers now).2 = .error e) ∧
    (∀ item : Item,
      itemId ≠ 0 →
      (db.items.find? fun i =>
          i.item_id == itemId && i.status == ItemStatus.active) = some item →
      item.item_owner_id ≠ userId →
      (submitClaim db userId itemId answers now).2 =
        .error SubmitError.duplicateClaim) := by
  have hany : (db.claims.any fun c =>
      c.item_id == itemId && c.claimant_id == userId) = true := by
    rcases hdup with ⟨c, hc, h1, h2⟩
    exact List.any_eq_true.2 ⟨c, hc, by simp [h1, h2]⟩
  constructor
  · by_cases h0 : itemId = 0
    · simp [submitClaim, h0]
    · rcases hfind : (db.items.find? fun i =>
          i.item_id == itemId && i.status == ItemStatus.active) with _ | item
      · simp [submitClaim, h0, hfind]
      · by_cases hself : item.item_owner_id = userId
        · simp [submitClaim, h0, hfind, hself]
        · simp [submitClaim, h0, hfind, hself, hany]
  · intro item h0 hfind hself
    simp [submitClaim, h0, hfind, hself, hany]

/-- Claim C5 witness: resubmitting against a still-active item with an
existing claim fails with the duplicate-claim error. -/
theorem duplicate_claim_amended_witness :
    (submitClaim dbB2 2 1 ["blue"] 9).2 =
      .error SubmitError.duplicateClaim :=
  (duplicate_claim_amended dbB2 2 1 9 ["blue"]
      ⟨claimB, by decide, by decide, by decide⟩).2
    itemA (by decide) (by decide) (by decide)

/-- Claim C5 counterexample: user 2 already holds a claim on item 1, but the
item is now in status `claimed`, so the resubmission fails with the
not-found/unavailable error instead of the duplicate-claim error. -/
theorem duplicate_claim_counterexample :
    (dbB1.claims.any fun c => c.item_id == 1 && c.claimant_id == 2) = true ∧
    submitClaim dbB1 2 1 ["blue"] 9 = (dbB1, .error SubmitError.itemNotFound) ∧
    SubmitError.itemNotFound ≠ SubmitError.duplicateClaim := by
  refine ⟨by decide, ?_, by decide⟩
  rfl

/-- Claim C10: every successfully created claim starts with
`contact_revealed = false` and a status in
`{pending_verification, awaiting_proof}` — never `approved` — and is appended
to the claims table. -/
theorem created_claim_initial_state (db : DB) (userId itemId now : Nat)
    (answers : List String) (res : SubmitOk)
    (hok : (submitClaim db userId itemId answers now).2 = .ok res) :
    res.claim.contact_revealed = false ∧
    (res.claim.claim_status = ClaimStatus.pending_verification ∨
      res.claim.claim_status = ClaimStatus.awaiting_proof) ∧
    res.claim.claim_status ≠ ClaimStatus.approved ∧
    (submitClaim db userId itemId answers now).1.claims =
      db.claims ++ [res.claim] := by
  by_cases h0 : itemId = 0
  · simp [submitClaim, h0] at hok
  · rcases hfind : (db.items.find? fun i =>
        i.item_id == itemId && i.status == ItemStatus.active) with _ | item
    · simp [submitClaim, h0, hfind] at hok
    · by_cases hself : item.item_owner_id = userId
      · simp [submitClaim, h0, hfind, hself] at hok
      · by_cases hdup : (db.claims.any fun c =>
            c.item_id == itemId && c.claimant_id == userId) = true
        · simp [submitClaim, h0, hfind, hself, hdup] at hok
        · by_cases hq : item.verification_questions.length = 0
          · simp [submitClaim, h0, hfind, hself, hdup, hq] at hok
          · by_cases hlen : answers.length ≠ item.verification_questions.length
            · simp [submitClaim, h0, hfind, hself, hdup, hq, hlen] at hok
            · rw [show submitClaim db userId itemId answers now =
                  ({ db with
                      claims := db.claims ++
                        [{ claim_id := db.nextClaimId
                           item_id := itemId
                           claimant_id := userId
                           item_owner_id := item.item_owner_id
                           claim_status := claimStatusFor
                             (evaluateAnswers item.verification_questions
                               answers).1
                             item.verification_questions.length
                           verification_answers := (evaluateAnswers
                             item.verification_questions answers).2
                           aadhar_proof := none
                           admin_notes := none
                           proof_verified := none
                           contact_revealed := false
                           created_at := now
                           proof_submitted_at := none
                           approved_at := none
                           completed_at := none }]
                      nextClaimId := db.nextClaimId + 1 },
                   .ok { claim :=
                           { claim_id := db.nextClaimId
                             item_id := itemId
                             claimant_id := userId
                             item_owner_id := item.item_owner_id
                             claim_status := claimStatusFor
                               (evaluateAnswers item.verification_questions
                                 answers).1
                               item.verification_questions.length
                             verification_answers := (evaluateAnswers
                               item.verification_questions answers).2
                             aadhar_proof := none
                             admin_notes := none
                             proof_verified := none
                             contact_revealed := false
                             created_at := now
                             proof_submitted_at := none
                             approved_at := none
                             completed_at := none }
                         correct_answers := (evaluateAnswers
                           item.verification_questions answers).1
                         total_questions := item.verification_questions.length
                         matchClass := classifyClaim
                           (evaluateAnswers item.verification_questions
                             answers).1
                           item.verification_questions.length }) by
                  simp [submitClaim, h0, hfind, hself, hdup, hq, hlen]] at hok ⊢
              rw [Except.ok.injEq] at hok
              subst hok
              refine ⟨rfl, ?_, ?_, rfl⟩
              · rcases claimStatusFor_cases
                  (evaluateAnswers item.verification_questions answers).1
                  item.verification_questions.length with hc | hc
                · exact Or.inr hc
                · exact Or.inl hc
              · exact claimStatusFor_ne_approved _ _

/-- Claim C10 witness: a fully correct (strong-match) submission still creates
the claim with `contact_revealed = false` and a non-approved status. -/
theorem created_claim_initial_state_witness :
    (submitClaim dbA 2 1 ["black leather", "nike"] 7).2 = .ok resG ∧
    resG.claim.contact_revealed = false ∧
    resG.claim.claim_status ≠ ClaimStatus.approved :=
  ⟨rfl,
   (created_claim_initial_state dbA 2 1 7 ["black leather", "nike"] resG
      rfl).1,
   (created_claim_initial_state dbA 2 1 7 ["black leather", "nike"] resG
      rfl).2.2.1⟩

/-- Claim C6 (amended): when the contact lookup finds the claim row (so the
caller is owner or claimant) and the joined item and claimant rows exist,
the lookup succeeds iff the claim status is `approved`; since every approval
path also sets `contact_revealed`, success implies `contact_revealed` and a
party caller; a party caller with a non-approved claim receives the 403
`AuthorizationError`.  (A caller who is neither owner nor claimant receives
the 404 not-found/access-denied response instead — see the
counterexample.) -/
theorem contact_gate_amended (db : DB) (claimId userId : Nat) (c : Claim)
    (hrow : partyRow db claimId userId = some c)
    (hitem : (db.items.find? fun i => i.item_id == c.item_id).isSome = true)
    (huser : (db.users.find? fun u => u.user_id == c.claimant_id).isSome = true)
    (hinv : c.claim_status = ClaimStatus.approved → c.contact_revealed = true) :
    ((∃ info, getContact db claimId userId = .ok info) ↔
      c.claim_status = ClaimStatus.approved) ∧
    ((∃ info, getContact db claimId userId = .ok info) →
      c.contact_revealed = true ∧
        (c.item_owner_id = userId ∨ c.claimant_id = userId)) ∧
    (c.claim_status ≠ ClaimStatus.approved →
      getContact db claimId userId = .error ContactError.notApproved) := by
  obtain ⟨item, hi⟩ := Option.isSome_iff_exists.1 hitem
  obtain ⟨user, hu⟩ := Option.isSome_iff_exists.1 huser
  have hp := List.find?_some (show db.claims.find? (fun c' =>
      c'.claim_id == claimId &&
        (c'.item_owner_id == userId || c'.claimant_id == userId)) = some c by
    simpa [partyRow] using hrow)
  simp only [Bool.and_eq_true, Bool.or_eq_true, beq_iff_eq] at hp
  by_cases hst : c.claim_status = ClaimStatus.approved
  · have hred : getContact db claimId userId = .ok
        { name := user.first_name ++ " " ++ user.last_name
          email := user.email
          phone := user.phone
          preferred_contact := item.preferred_contact.getD "email"
          item_title := item.title } := by
      simp [getContact, hrow, hi, hu, hst]
    refine ⟨⟨fun _ => hst, fun _ => ⟨_, hred⟩⟩, fun _ => ⟨hinv hst, hp.2⟩,
      fun hne => absurd hst hne⟩
  · have hred : getContact db claimId userId =
        .error ContactError.notApproved := by
      simp [getContact, hrow, hi, hu, hst]
    refine ⟨⟨?_, fun hs => absurd hs hst⟩, ?_, fun _ => hred⟩
    · rintro ⟨info, hok⟩
      rw [hred] at hok
      simp at hok
    · rintro ⟨info, hok⟩
      rw [hred] at hok
      simp at hok

/-- Claim C6 (amended) witness: the approved claim of `dbC` with the claimant
calling has contact revealed and the caller is a party. -/
theorem contact_gate_amended_witness :
    claimC.contact_revealed = true ∧
    (claimC.item_owner_id = 2 ∨ claimC.claimant_id = 2) :=
  (contact_gate_amended dbC 1 2 claimC (by decide) (by decide) (by decide)
      (fun _ => rfl)).2.1
    ⟨{ name := "Jane Doe"
       email := "jane@campus.edu"
       phone := "12345"
       preferred_contact := "email"
       item_title := "Black Wallet" }, rfl⟩

/-- Claim C6 counterexample: for the approved, contact-revealed claim of
`dbC`, the caller 99 is neither owner nor claimant — so the claim as stated
demands an `AuthorizationError` — yet the code answers with the 404
not-found/access-denied response, which is a different error than the 403
`AuthorizationError` response. -/
theorem contact_gate_counterexample :
    ¬(claimC.contact_revealed = true ∧
        (claimC.item_owner_id = 99 ∨ claimC.claimant_id = 99)) ∧
    getContact dbC 1 99 = .error ContactError.notFoundOrAccessDenied ∧
    (Except.error ContactError.notFoundOrAccessDenied ≠
      (.error ContactError.notApproved : Except ContactError ContactInfo)) :=
  ⟨by decide, rfl, by simp⟩

/-- Claim C7 (amended): for any claim visible to either party, the complete
route sets the claim to `completed` with the completion timestamp and the
item to `returned`, regardless of the current claim status — the code
enforces no approved-state guard, so non-approved claims are transitioned
too (see the counterexample). -/
theorem complete_transition_amended (db : DB) (claimId userId now : Nat)
    (c : Claim) (hrow : partyRow db claimId userId = some c) :
    (completeClaim db claimId userId now).2 = .ok () ∧
    (∀ x ∈ (completeClaim db claimId userId now).1.claims,
      x.claim_id = claimId →
        x.claim_status = ClaimStatus.completed ∧ x.completed_at = some now) ∧
    (∀ i ∈ (completeClaim db claimId userId now).1.items,
      i.item_id = c.item_id → i.status = ItemStatus.returned) := by
  have hres : completeClaim db claimId userId now =
      ({ db with
          claims := db.claims.map fun x =>
            if x.claim_id = claimId then
              { x with claim_status := ClaimStatus.completed
                       completed_at := some now }
            else x
          items := db.items.map fun i =>
            if i.item_id = c.item_id then
              { i with status := ItemStatus.returned }
            else i },
       .ok ()) := by
    unfold completeClaim
    rw [hrow]
  rw [hres]
  refine ⟨rfl, ?_, ?_⟩
  · intro x hx hid
    simp only [List.mem_map] at hx
    obtain ⟨y, _, hxy⟩ := hx
    by_cases hyid : y.claim_id = claimId
    · rw [if_pos hyid] at hxy
      rw [← hxy]
      exact ⟨rfl, rfl⟩
    · rw [if_neg hyid] at hxy
      rw [← hxy] at hid
      exact absurd hid hyid
  · intro i hi hid
    simp only [List.mem_map] at hi
    obtain ⟨y, _, hiy⟩ := hi
    by_cases hyid : y.item_id = c.item_id
    · rw [if_pos hyid] at hiy
      rw [← hiy]
    · rw [if_neg hyid] at hiy
      rw [← hiy] at hid
      exact absurd hid hyid

/-- Claim C7 (amended) witness: completing the pending claim of `dbD` as the
claimant succeeds. -/
theorem complete_transition_amended_witness :
    (completeClaim dbD 1 2 5).2 = .ok () :=
  (complete_transition_amended dbD 1 2 5 claimB (by decide)).1

/-- Claim C7 counterexample: the claim of `dbD` is in
`pending_verification`, not `approved`, yet the complete route transitions
it to `completed` (with the item set to `returned`), contradicting the claim
that a non-approved claim is never transitioned to completed. -/
theorem complete_guard_counterexample :
    claimB.claim_status ≠ ClaimStatus.approved ∧
    (completeClaim dbD 1 2 5).2 = .ok () ∧
    (completeClaim dbD 1 2 5).1.claims =
      [{ claimB with
          claim_status := ClaimStatus.completed
          completed_at := some 5 }] ∧
    (completeClaim dbD 1 2 5).1.items =
      [{ itemB with status := ItemStatus.returned }] :=
  ⟨by decide, rfl, by decide, by decide⟩

/-- Claim C8 (amended): for any claim on one of the caller's items, the
approve route sets the claim to `approved` with the approval timestamp and
`contact_revealed = true` and the item to `claimed`, regardless of the
current claim status — the code enforces no terminal-state guard, so
rejected or completed claims are transitioned too (see the
counterexample). -/
theorem approve_transition_amended (db : DB) (claimId userId now : Nat)
    (c : Claim) (hrow : ownerRow db claimId userId = some c) :
    (approveClaim db claimId userId now).2 = .ok () ∧
    (∀ x ∈ (approveClaim db claimId userId now).1.claims,
      x.claim_id = claimId →
        x.claim_status = ClaimStatus.approved ∧ x.approved_at = some now ∧
          x.contact_revealed = true) ∧
    (∀ i ∈ (approveClaim db claimId userId now).1.items,
      i.item_id = c.item_id → i.status = ItemStatus.claimed) := by
  have hres : approveClaim db claimId userId now =
      ({ db with
          claims := db.claims.map fun x =>
            if x.claim_id = claimId then
              { x with claim_status := ClaimStatus.approved
                       approved_at := some now
                       contact_revealed := true }
            else x
          items := db.items.map fun i =>
            if i.item_id = c.item_id then
              { i with status := ItemStatus.claimed }
            else i },
       .ok ()) := by
    unfold approveClaim
    rw [hrow]
  rw [hres]
  refine ⟨rfl, ?_, ?_⟩
  · intro x hx hid
    simp only [List.mem_map] at hx
    obtain ⟨y, _, hxy⟩ := hx
    by_cases hyid : y.claim_id = claimId
    · rw [if_pos hyid] at hxy
      rw [← hxy]
      exact ⟨rfl, rfl, rfl⟩
    · rw [if_neg hyid] at hxy
      rw [← hxy] at hid
      exact absurd hid hyid
  · intro i hi hid
    simp only [List.mem_map] at hi
    obtain ⟨y, _, hiy⟩ := hi
    by_cases hyid : y.item_id = c.item_id
    · rw [if_pos hyid] at hiy
      rw [← hiy]
    · rw [if_neg hyid] at hiy
      rw [← hiy] at hid
      exact absurd hid hyid

/-- Claim C8 (amended) witness: the owner approving the (non-terminal)
pending claim of `dbD` succeeds. -/
theorem approve_transition_amended_witness :
    (approveClaim dbD 1 10 6).2 = .ok () :=
  (approve_transition_amended dbD 1 10 6 claimB (by decide)).1

/-- Claim C8 counterexample: the claim of `dbE` is in the terminal `rejected`
state, yet the owner's approve route transitions it to `approved` with
contact revealed, contradicting the claim that a terminal claim is never
transitioned to approved. -/
theorem approve_guard_counterexample :
    claimE.claim_status = ClaimStatus.rejected ∧
    (approveClaim dbE 1 10 6).2 = .ok () ∧
    (approveClaim dbE 1 10 6).1.claims =
      [{ claimE with
          claim_status := ClaimStatus.approved
          approved_at := some 6
          contact_revealed := true }] :=
  ⟨by decide, rfl, by decide⟩

/-- Claim C9: proof upload by the claimant with a file succeeds iff the claim
is in `awaiting_proof` or `proof_submitted`; on success the claim row gets
the `proof_submitted` status, the stored document path and the submission
timestamp; in any other status the request fails with the 400 wrong-state
error and the state is unchanged. -/
theorem proof_upload_gate (db : DB) (claimId userId now : Nat)
    (filename : String) (c : Claim)
    (hrow : claimantRow db claimId userId = some c) :
    ((submitProof db claimId userId (some filename) now).2 = .ok () ↔
      (c.claim_status = ClaimStatus.awaiting_proof ∨
        c.claim_status = ClaimStatus.proof_submitted)) ∧
    ((c.claim_status = ClaimStatus.awaiting_proof ∨
        c.claim_status = ClaimStatus.proof_submitted) →
      ∀ x ∈ (submitProof db claimId userId (some filename) now).1.claims,
        x.claim_id = claimId →
          x.claim_status = ClaimStatus.proof_submitted ∧
          x.aadhar_proof = some ("/documents/" ++ filename) ∧
          x.proof_submitted_at = some now) ∧
    (¬(c.claim_status = ClaimStatus.awaiting_proof ∨
        c.claim_status = ClaimStatus.proof_submitted) →
      submitProof db claimId userId (some filename) now =
        (db, .error ProofError.wrongState)) := by
  by_cases hst : c.claim_status = ClaimStatus.awaiting_proof ∨
      c.claim_status = ClaimStatus.proof_submitted
  · have hres : submitProof db claimId userId (some filename) now =
        ({ db with
            claims := db.claims.map fun x =>
              if x.claim_id = claimId then
                { x with aadhar_proof := some ("/documents/" ++ filename)
                         claim_status := ClaimStatus.proof_submitted
                         proof_submitted_at := some now }
              else x },
         .ok ()) := by
      unfold submitProof
      rw [hrow]
      exact if_pos hst
    rw [hres]
    refine ⟨iff_of_true rfl hst, fun _ => ?_, fun hns => absurd hst hns⟩
    intro x hx hid
    simp only [List.mem_map] at hx
    obtain ⟨y, _, hxy⟩ := hx
    by_cases hyid : y.claim_id = claimId
    · rw [if_pos hyid] at hxy
      rw [← hxy]
      exact ⟨rfl, rfl, rfl⟩
    · rw [if_neg hyid] at hxy
      rw [← hxy] at hid
      exact absurd hid hyid
  · have hres : submitProof db claimId userId (some filename) now =
        (db, .error ProofError.wrongState) := by
      unfold submitProof
      rw [hrow]
      exact if_neg hst
    rw [hres]
    refine ⟨iff_of_false (by simp) hst, fun hs => absurd hs hst, fun _ => rfl⟩

/-- Claim C9 witness: the claimant uploading a document for the
awaiting-proof claim of `dbF` succeeds. -/
theorem proof_upload_gate_witness :
    (submitProof dbF 1 2 (some "aadhar-proof-1.png") 4).2 = .ok () :=
  ((proof_upload_gate dbF 1 2 4 "aadhar-proof-1.png" claimF (by decide)).1).2
    (Or.inl rfl)

end LostFound
